import Mathlib

/-!
Shallow embedding of `core/framework/server/routes_credentials.py`.

The module is pure request/response marshalling over an external
`CredentialStore` and `CredentialSetupSession`.  JSON values carried by
requests and responses are modelled by the inductive `Json`; Python
truthiness by `Json.truthy`; the external store by a structure of
functions.  Each aiohttp handler becomes a pure Lean function returning
the `web.Response` it produces together with the trace of calls it makes
on the external collaborators.  A handler that can raise an uncaught
Python exception (malformed request JSON, `.get` on a non-dict body)
returns `Except`, and `serve` models aiohttp turning an uncaught
exception into a 500 response.
-/

/-- JSON values, as produced by Python's `json` module.  Numbers are
modelled as integers; no route inspects numeric values beyond
truthiness. -/
inductive Json where
  | null : Json
  | bool : Bool → Json
  | num : Int → Json
  | str : String → Json
  | arr : List Json → Json
  | obj : List (String × Json) → Json
deriving Repr

/-- Python truthiness on JSON values: `None`, `False`, `0`, `""`, `[]`
and `{}` are falsy, everything else truthy. -/
def Json.truthy : Json → Bool
  | .null => false
  | .bool b => b
  | .num n => n != 0
  | .str s => s != ""
  | .arr xs => !xs.isEmpty
  | .obj kvs => !kvs.isEmpty

/-- Is the value a JSON object (a Python `dict`)? -/
def Json.isObj : Json → Bool
  | .obj _ => true
  | _ => false

/-- The fields of a JSON object (`dict.items()` order); `[]` otherwise. -/
def Json.objFields : Json → List (String × Json)
  | .obj kvs => kvs
  | _ => []

/-- Python `dict.get(k)`: the value bound to `k`, or `None` when
absent.  Objects produced by `json.loads` have unique keys, so first
match suffices. -/
def dictGet (kvs : List (String × Json)) (k : String) : Json :=
  match kvs.find? (fun p => p.1 == k) with
  | some p => p.2
  | none => Json.null

/-- Python `a or b` on JSON values. -/
def pyOr (a b : Json) : Json :=
  if a.truthy then a else b

/-- `pydantic.SecretStr`: an opaque wrapper around the secret value. -/
structure SecretStr where
  secret_value : Json
deriving Repr

/-- `framework.credentials.models.CredentialKey` as used by this module:
a name and a wrapped secret value. -/
structure CredentialKey where
  name : String
  value : SecretStr
deriving Repr

/-- `framework.credentials.models.CredentialObject` as consumed and
produced by this module.  `credential_type`, `created_at` and
`updated_at` are read only through `str(...)` / `.isoformat()`, so they
are modelled by the resulting strings; the external pydantic model's
defaults for them are modelled as `""` / `none` / `none` (no claim
depends on the default values).  `keys` is the dict from key name to
`CredentialKey`, in insertion order. -/
structure CredentialObject where
  id : Json
  keys : List (String × CredentialKey)
  credential_type : String
  created_at : Option String
  updated_at : Option String
deriving Repr

/-- The external `CredentialStore`, abstracted as the functions the
routes call.  `get_credential` takes the id and the `refresh_if_needed`
flag; `delete_credential` returns the truthiness of its result;
`is_available` receives whatever value the route resolves as the
credential id. -/
structure CredentialStore where
  list_credentials : List String
  get_credential : String → Bool → Option CredentialObject
  delete_credential : String → Bool
  is_available : Json → Bool

/-- One element of `CredentialSetupSession.missing`, carrying exactly
the attributes the route reads. -/
structure MissingCredential where
  credential_name : Json
  credential_id : Json
  env_var : Json
  description : Json
  help_url : Json
  tools : Json
  node_types : Json
  direct_api_key_supported : Json
  aden_supported : Json
  credential_key : Json
deriving Repr

/-- The external `CredentialSetupSession`, abstracted as its `missing`
list. -/
structure CredentialSetupSession where
  missing : List MissingCredential
deriving Repr

/-- The external `CredentialSetupSession.from_agent_path` class method:
from an agent path and the `missing_only` flag it builds a session or
raises (modelled by `Except.error` carrying `str(e)`). -/
structure SetupEnv where
  from_agent_path : Json → Bool → Except String CredentialSetupSession

/-- A call made on the external collaborators, recorded in handler
traces. -/
inductive Call where
  | listCredentials : Call
  | getCredential : String → Bool → Call
  | saveCredential : CredentialObject → Call
  | deleteCredential : String → Call
  | isAvailable : Json → Call
  | fromAgentPath : Json → Bool → Call
deriving Repr

/-- An HTTP response: status code and JSON body. -/
structure Response where
  status : Nat
  body : Json
deriving Repr

/-- `web.json_response(body, status=...)`. -/
def json_response (body : Json) (status : Nat) : Response :=
  ⟨status, body⟩

/-- ASCII apostrophe, used in the not-found error messages. -/
def squote : String := String.singleton (Char.ofNat 39)

/-- The f-string body of the 404 errors. -/
def notFoundMsg (credential_id : String) : String :=
  "Credential " ++ squote ++ credential_id ++ squote ++ " not found"

/-- Serialize a `CredentialObject` to its metadata fields, in source
order — never the secret values (`_credential_to_dict`). -/
def credential_to_dict (cred : CredentialObject) : List (String × Json) :=
  [("credential_id", cred.id),
   ("credential_type", Json.str cred.credential_type),
   ("key_names", Json.arr (cred.keys.map (fun p => Json.str p.1))),
   ("created_at", match cred.created_at with
                  | some t => Json.str t
                  | none => Json.null),
   ("updated_at", match cred.updated_at with
                  | some t => Json.str t
                  | none => Json.null)]

/-- The accumulation loop of `handle_list_credentials`: for each id,
fetch with `refresh_if_needed=False` and append the serialization when
the credential is truthy (pydantic models are truthy, so: not `None`). -/
def credListLoop (store : CredentialStore) : List String → List Json
  | [] => []
  | cid :: rest =>
    match store.get_credential cid false with
    | some cred => Json.obj (credential_to_dict cred) :: credListLoop store rest
    | none => credListLoop store rest

/-- GET `/api/credentials` — list all credential metadata. -/
def handle_list_credentials (store : CredentialStore) : Response × List Call :=
  let cred_ids := store.list_credentials
  (json_response (Json.obj [("credentials", Json.arr (credListLoop store cred_ids))]) 200,
   Call.listCredentials :: cred_ids.map (fun cid => Call.getCredential cid false))

/-- GET `/api/credentials/{credential_id}` — single credential
metadata, 404 when the store returns `None`. -/
def handle_get_credential (store : CredentialStore) (credential_id : String) :
    Response × List Call :=
  match store.get_credential credential_id false with
  | none =>
    (json_response (Json.obj [("error", Json.str (notFoundMsg credential_id))]) 404,
     [Call.getCredential credential_id false])
  | some cred =>
    (json_response (Json.obj (credential_to_dict cred)) 200,
     [Call.getCredential credential_id false])

/-- POST `/api/credentials` — store a credential.  `rawBody = none`
models `request.json()` raising on malformed JSON; a non-dict body makes
`body.get` raise `AttributeError`.  Both propagate as `Except.error`. -/
def handle_save_credential (store : CredentialStore) (rawBody : Option Json) :
    Except String Response × List Call :=
  match rawBody with
  | none => (Except.error "request body is not valid JSON", [])
  | some (Json.obj kvs) =>
    let credential_id := dictGet kvs "credential_id"
    let keys := dictGet kvs "keys"
    if !credential_id.truthy || !keys.truthy || !keys.isObj then
      (Except.ok (json_response
        (Json.obj [("error", Json.str "credential_id and keys are required")]) 400), [])
    else
      let cred : CredentialObject :=
        ⟨credential_id,
         keys.objFields.map (fun p => (p.1, ⟨p.1, ⟨p.2⟩⟩)),
         "", none, none⟩
      (Except.ok (json_response (Json.obj [("saved", credential_id)]) 201),
       [Call.saveCredential cred])
  | some _ => (Except.error "AttributeError: no attribute get", [])

/-- DELETE `/api/credentials/{credential_id}` — delete a credential,
404 when the store's result is falsy. -/
def handle_delete_credential (store : CredentialStore) (credential_id : String) :
    Response × List Call :=
  let deleted := store.delete_credential credential_id
  if !deleted then
    (json_response (Json.obj [("error", Json.str (notFoundMsg credential_id))]) 404,
     [Call.deleteCredential credential_id])
  else
    (json_response (Json.obj [("deleted", Json.bool true)]) 200,
     [Call.deleteCredential credential_id])

/-- The fields of one entry of the check-agent `required` list, in
source order. -/
def requiredFields (store : CredentialStore) (mc : MissingCredential) :
    List (String × Json) :=
  let cred_id := pyOr mc.credential_id mc.credential_name
  [("credential_name", mc.credential_name),
   ("credential_id", cred_id),
   ("env_var", mc.env_var),
   ("description", mc.description),
   ("help_url", mc.help_url),
   ("tools", mc.tools),
   ("node_types", mc.node_types),
   ("available", Json.bool (store.is_available cred_id)),
   ("direct_api_key_supported", mc.direct_api_key_supported),
   ("aden_supported", mc.aden_supported),
   ("credential_key", mc.credential_key)]

/-- One entry of the check-agent `required` list. -/
def requiredEntry (store : CredentialStore) (mc : MissingCredential) : Json :=
  Json.obj (requiredFields store mc)

/-- POST `/api/credentials/check-agent` — which credentials an agent
needs.  `request.json()` and `body.get` run before the `try`, so their
exceptions propagate; inside the `try`, an exception becomes a 500 JSON
response with the exception's string. -/
def handle_check_agent (env : SetupEnv) (store : CredentialStore)
    (rawBody : Option Json) : Except String Response × List Call :=
  match rawBody with
  | none => (Except.error "request body is not valid JSON", [])
  | some (Json.obj kvs) =>
    let agent_path := dictGet kvs "agent_path"
    if !agent_path.truthy then
      (Except.ok (json_response
        (Json.obj [("error", Json.str "agent_path is required")]) 400), [])
    else
      match env.from_agent_path agent_path false with
      | Except.error e =>
        (Except.ok (json_response (Json.obj [("error", Json.str e)]) 500),
         [Call.fromAgentPath agent_path false])
      | Except.ok session =>
        (Except.ok (json_response
          (Json.obj [("required",
            Json.arr (session.missing.map (requiredEntry store)))]) 200),
         Call.fromAgentPath agent_path false ::
           session.missing.map
             (fun mc => Call.isAvailable (pyOr mc.credential_id mc.credential_name)))
  | some _ => (Except.error "AttributeError: no attribute get", [])

/-- aiohttp's server loop: an exception escaping a handler becomes a 500
Internal Server Error response. -/
def serve : Except String Response × List Call → Response × List Call
  | (Except.ok r, t) => (r, t)
  | (Except.error _, t) => (⟨500, Json.null⟩, t)

/-! Concrete fixtures used by the witness theorems. -/

/-- A concrete stored credential. -/
def wCred : CredentialObject :=
  ⟨Json.str "db", [("api_key", ⟨"api_key", ⟨Json.str "old-secret"⟩⟩)],
   "manual", some "2024-01-01T00:00:00", none⟩

/-- The same credential with a different secret value only. -/
def wCredB : CredentialObject :=
  ⟨Json.str "db", [("api_key", ⟨"api_key", ⟨Json.str "new-secret"⟩⟩)],
   "manual", some "2024-01-01T00:00:00", none⟩

/-- A concrete store holding `wCred` under id `"db"`. -/
def wStore : CredentialStore :=
  ⟨["db"],
   fun cid _ => if cid = "db" then some wCred else none,
   fun cid => cid == "db",
   fun _ => true⟩

/-- A store identical to `wStore` except for the secret value. -/
def wStoreB : CredentialStore :=
  ⟨["db"],
   fun cid _ => if cid = "db" then some wCredB else none,
   fun cid => cid == "db",
   fun _ => true⟩

/-- A concrete missing-credential requirement with a falsy
`credential_id`. -/
def wMissing : MissingCredential :=
  ⟨Json.str "openai", Json.null, Json.str "OPENAI_API_KEY", Json.null, Json.null,
   Json.arr [], Json.arr [], Json.bool true, Json.bool false, Json.str "api_key"⟩

/-- A concrete setup session. -/
def wSession : CredentialSetupSession := ⟨[wMissing]⟩

/-- A setup environment whose `from_agent_path` always succeeds with
`wSession`. -/
def wEnv : SetupEnv := ⟨fun _ _ => Except.ok wSession⟩

/-- C1: POST /api/credentials with a JSON dict body returns 400 with the
required-fields error when `credential_id` is absent or falsy or `keys`
is absent, falsy or not a dict; otherwise it saves the credential built
from `credential_id` and the secret-wrapped keys and returns 201 with
`{"saved": credential_id}`. -/
theorem save_credential_marshalling (store : CredentialStore)
    (kvs : List (String × Json)) :
    (¬ ((dictGet kvs "credential_id").truthy = true ∧
        (dictGet kvs "keys").truthy = true ∧
        (dictGet kvs "keys").isObj = true) →
      handle_save_credential store (some (Json.obj kvs)) =
        (Except.ok ⟨400, Json.obj
          [("error", Json.str "credential_id and keys are required")]⟩, []))
  ∧ ((dictGet kvs "credential_id").truthy = true →
     (dictGet kvs "keys").truthy = true →
     (dictGet kvs "keys").isObj = true →
      handle_save_credential store (some (Json.obj kvs)) =
        (Except.ok ⟨201, Json.obj [("saved", dictGet kvs "credential_id")]⟩,
         [Call.saveCredential
           ⟨dictGet kvs "credential_id",
            (dictGet kvs "keys").objFields.map (fun p => (p.1, ⟨p.1, ⟨p.2⟩⟩)),
            "", none, none⟩])) := by
  by_cases h1 : (dictGet kvs "credential_id").truthy = true <;>
  by_cases h2 : (dictGet kvs "keys").truthy = true <;>
  by_cases h3 : (dictGet kvs "keys").isObj = true <;>
    simp_all [handle_save_credential, json_response]

/-- Witness for C1: a concrete valid body is saved with status 201. -/
theorem save_credential_marshalling_witness :
    handle_save_credential wStore
        (some (Json.obj [("credential_id", Json.str "db"),
                         ("keys", Json.obj [("api_key", Json.str "v1")])])) =
      (Except.ok ⟨201, Json.obj [("saved", Json.str "db")]⟩,
       [Call.saveCredential
         ⟨Json.str "db", [("api_key", ⟨"api_key", ⟨Json.str "v1"⟩⟩)],
          "", none, none⟩]) :=
  (save_credential_marshalling wStore
      [("credential_id", Json.str "db"),
       ("keys", Json.obj [("api_key", Json.str "v1")])]).2
    (by decide) (by decide) (by decide)

/-- C2: GET /api/credentials/{credential_id} returns 404 with an error
body exactly when the store (queried with `refresh_if_needed=False`)
returns `None`, and otherwise 200 with exactly the metadata
serialization of the credential. -/
theorem get_credential_spec (store : CredentialStore) (credential_id : String) :
    ((handle_get_credential store credential_id).1.status = 404 ↔
      store.get_credential credential_id false = none)
  ∧ (store.get_credential credential_id false = none →
      (handle_get_credential store credential_id).1 =
        ⟨404, Json.obj [("error", Json.str (notFoundMsg credential_id))]⟩)
  ∧ (∀ cred, store.get_credential credential_id false = some cred →
      (handle_get_credential store credential_id).1 =
        ⟨200, Json.obj (credential_to_dict cred)⟩) := by
  rcases hg : store.get_credential credential_id false with _ | cred <;>
    simp [handle_get_credential, hg, json_response]

/-- Witness for C2: an unknown id yields the 404 error response. -/
theorem get_credential_spec_witness :
    (handle_get_credential wStore "nope").1 =
      ⟨404, Json.obj [("error", Json.str (notFoundMsg "nope"))]⟩ :=
  (get_credential_spec wStore "nope").2.1 rfl

/-- C3: DELETE /api/credentials/{credential_id} returns 404 with an
error body exactly when `store.delete_credential` returns a falsy
result, and otherwise 200 with `{"deleted": true}`. -/
theorem delete_credential_spec (store : CredentialStore) (credential_id : String) :
    ((handle_delete_credential store credential_id).1.status = 404 ↔
      store.delete_credential credential_id = false)
  ∧ (store.delete_credential credential_id = false →
      (handle_delete_credential store credential_id).1 =
        ⟨404, Json.obj [("error", Json.str (notFoundMsg credential_id))]⟩)
  ∧ (store.delete_credential credential_id = true →
      (handle_delete_credential store credential_id).1 =
        ⟨200, Json.obj [("deleted", Json.bool true)]⟩) := by
  cases hd : store.delete_credential credential_id <;>
    simp [handle_delete_credential, hd, json_response]

/-- Witness for C3: deleting the present id succeeds with 200. -/
theorem delete_credential_spec_witness :
    (handle_delete_credential wStore "db").1 =
      ⟨200, Json.obj [("deleted", Json.bool true)]⟩ :=
  (delete_credential_spec wStore "db").2.2 rfl

/-- The list-handler loop is the filterMap of serialization over the
store's ids: `None` results are silently omitted, order preserved. -/
theorem credListLoop_eq_filterMap (store : CredentialStore) (l : List String) :
    credListLoop store l =
      l.filterMap (fun cid =>
        (store.get_credential cid false).map
          (fun cred => Json.obj (credential_to_dict cred))) := by
  induction l with
  | nil => rfl
  | cons cid rest ih =>
    rcases hg : store.get_credential cid false with _ | cred <;>
      simp [credListLoop, hg, ih]

/-- C4: GET /api/credentials returns 200 and its `credentials` field is
exactly the metadata serializations of the ids of
`store.list_credentials` that resolve (with `refresh_if_needed=False`)
to a credential, in order, `None` results omitted. -/
theorem list_credentials_spec (store : CredentialStore) :
    (handle_list_credentials store).1 =
      ⟨200, Json.obj [("credentials", Json.arr
        (store.list_credentials.filterMap (fun cid =>
          (store.get_credential cid false).map
            (fun cred => Json.obj (credential_to_dict cred)))))]⟩ := by
  simp [handle_list_credentials, credListLoop_eq_filterMap, json_response]

/-- Two credentials agree on everything the metadata serialization
reads: id, type, key names, timestamps — the secret values are free. -/
def sameMetadata (c1 c2 : CredentialObject) : Prop :=
  c1.id = c2.id ∧ c1.credential_type = c2.credential_type ∧
  c1.keys.map Prod.fst = c2.keys.map Prod.fst ∧
  c1.created_at = c2.created_at ∧ c1.updated_at = c2.updated_at

/-- Lift `sameMetadata` to optional results of `get_credential`. -/
def optionSameMetadata : Option CredentialObject → Option CredentialObject → Prop
  | none, none => True
  | some c1, some c2 => sameMetadata c1 c2
  | _, _ => False

/-- Two stores agree on credential ids, types, key names and timestamps
but may differ arbitrarily in the secret values of the keys. -/
def agreeUpToSecrets (s1 s2 : CredentialStore) : Prop :=
  s1.list_credentials = s2.list_credentials ∧
  ∀ cid rf, optionSameMetadata (s1.get_credential cid rf) (s2.get_credential cid rf)

/-- The metadata serialization depends only on the `sameMetadata`
fields. -/
theorem credential_to_dict_congr {c1 c2 : CredentialObject}
    (h : sameMetadata c1 c2) : credential_to_dict c1 = credential_to_dict c2 := by
  obtain ⟨h1, h2, h3, h4, h5⟩ := h
  have hk : c1.keys.map (fun p => Json.str p.1) = c2.keys.map (fun p => Json.str p.1) := by
    have hmap := congrArg (List.map Json.str) h3
    simpa [List.map_map, Function.comp] using hmap
  simp [credential_to_dict, h1, h2, hk, h4, h5]

/-- The list-handler loop gives equal output on stores that agree up to
secrets. -/
theorem credListLoop_congr (s1 s2 : CredentialStore)
    (h : ∀ cid rf, optionSameMetadata (s1.get_credential cid rf) (s2.get_credential cid rf))
    (l : List String) : credListLoop s1 l = credListLoop s2 l := by
  induction l with
  | nil => rfl
  | cons cid rest ih =>
    have hrel := h cid false
    rcases h1 : s1.get_credential cid false with _ | c1 <;>
    rcases h2 : s2.get_credential cid false with _ | c2 <;>
      rw [h1, h2] at hrel <;> simp only [optionSameMetadata] at hrel
    · simp only [credListLoop, h1, h2, ih]
    · simp only [credListLoop, h1, h2, ih, credential_to_dict_congr hrel]

/-- C5: the two read endpoints never reveal secret values — on stores
that agree up to secrets, GET /api/credentials and
GET /api/credentials/{credential_id} produce identical responses (and
identical store-call traces). -/
theorem read_endpoints_secret_independent (s1 s2 : CredentialStore)
    (h : agreeUpToSecrets s1 s2) (credential_id : String) :
    handle_list_credentials s1 = handle_list_credentials s2 ∧
    handle_get_credential s1 credential_id = handle_get_credential s2 credential_id := by
  obtain ⟨hl, hg⟩ := h
  constructor
  · simp only [handle_list_credentials, hl, credListLoop_congr s1 s2 hg]
  · have hrel := hg credential_id false
    rcases h1 : s1.get_credential credential_id false with _ | c1 <;>
    rcases h2 : s2.get_credential credential_id false with _ | c2 <;>
      rw [h1, h2] at hrel <;> simp only [optionSameMetadata] at hrel
    · simp [handle_get_credential, h1, h2]
    · simp [handle_get_credential, h1, h2, credential_to_dict_congr hrel]

/-- Witness for C5: two concrete stores differing only in a secret value
yield identical list and get responses. -/
theorem read_endpoints_secret_independent_witness :
    handle_list_credentials wStore = handle_list_credentials wStoreB ∧
    handle_get_credential wStore "db" = handle_get_credential wStoreB "db" :=
  read_endpoints_secret_independent wStore wStoreB
    (by
      refine ⟨rfl, fun cid rf => ?_⟩
      by_cases hc : cid = "db" <;>
        simp [wStore, wStoreB, hc, optionSameMetadata, sameMetadata, wCred, wCredB])
    "db"

/-- The HTTP statuses this module can answer with. -/
def okStatuses : List Nat := [200, 201, 400, 404, 500]

/-- C6: every request to any of the five handlers — including malformed
or non-dict JSON bodies, which raise inside the handler and are turned
into a 500 by the server — results in a status among 200, 201, 400, 404
and 500. -/
theorem handlers_status_range (store : CredentialStore) (env : SetupEnv)
    (rawBody : Option Json) (credential_id : String) :
    (handle_list_credentials store).1.status ∈ okStatuses ∧
    (handle_get_credential store credential_id).1.status ∈ okStatuses ∧
    (serve (handle_save_credential store rawBody)).1.status ∈ okStatuses ∧
    (handle_delete_credential store credential_id).1.status ∈ okStatuses ∧
    (serve (handle_check_agent env store rawBody)).1.status ∈ okStatuses := by
  refine ⟨?_, ?_, ?_, ?_, ?_⟩
  · simp [handle_list_credentials, json_response, okStatuses]
  · rcases hg : store.get_credential credential_id false with _ | c <;>
      simp [handle_get_credential, hg, json_response, okStatuses]
  · rcases rawBody with _ | body
    · simp [handle_save_credential, serve, okStatuses]
    · rcases body with _ | b | n | s | xs | kvs
      case obj =>
        by_cases h1 : (dictGet kvs "credential_id").truthy = true <;>
        by_cases h2 : (dictGet kvs "keys").truthy = true <;>
        by_cases h3 : (dictGet kvs "keys").isObj = true <;>
          simp [handle_save_credential, serve, okStatuses, json_response, h1, h2, h3]
      all_goals simp [handle_save_credential, serve, okStatuses]
  · cases hd : store.delete_credential credential_id <;>
      simp [handle_delete_credential, hd, json_response, okStatuses]
  · rcases rawBody with _ | body
    · simp [handle_check_agent, serve, okStatuses]
    · rcases body with _ | b | n | s | xs | kvs <;>
        simp only [handle_check_agent, serve, okStatuses, json_response]
      case obj =>
        by_cases hp : (dictGet kvs "agent_path").truthy = true
        · rcases he : SetupEnv.from_agent_path env (dictGet kvs "agent_path") false with e | sess <;>
            simp [hp, he, serve, okStatuses, json_response]
        · simp [hp, serve, okStatuses, json_response]
      all_goals simp

/-- C7: POST /api/credentials/check-agent with a dict body: a falsy
`agent_path` gives 400 with the required error; an exception while
building the session gives 500 whose `error` field is the exception's
string; otherwise 200 with exactly one `required` entry per element of
the session's `missing` list — and the session is always built with
`missing_only=False`. -/
theorem check_agent_spec (env : SetupEnv) (store : CredentialStore)
    (kvs : List (String × Json)) :
    (¬ (dictGet kvs "agent_path").truthy = true →
      handle_check_agent env store (some (Json.obj kvs)) =
        (Except.ok ⟨400, Json.obj [("error", Json.str "agent_path is required")]⟩, []))
  ∧ (∀ e, (dictGet kvs "agent_path").truthy = true →
      env.from_agent_path (dictGet kvs "agent_path") false = Except.error e →
      handle_check_agent env store (some (Json.obj kvs)) =
        (Except.ok ⟨500, Json.obj [("error", Json.str e)]⟩,
         [Call.fromAgentPath (dictGet kvs "agent_path") false]))
  ∧ (∀ session, (dictGet kvs "agent_path").truthy = true →
      env.from_agent_path (dictGet kvs "agent_path") false = Except.ok session →
      handle_check_agent env store (some (Json.obj kvs)) =
        (Except.ok ⟨200, Json.obj [("required",
           Json.arr (session.missing.map (requiredEntry store)))]⟩,
         Call.fromAgentPath (dictGet kvs "agent_path") false ::
           session.missing.map (fun mc =>
             Call.isAvailable (pyOr mc.credential_id mc.credential_name)))) := by
  refine ⟨fun hp => ?_, fun e hp he => ?_, fun session hp hs => ?_⟩
  · simp [handle_check_agent, hp, json_response]
  · simp [handle_check_agent, hp, he, json_response]
  · simp [handle_check_agent, hp, hs, json_response]

/-- Witness for C7: a concrete check-agent request succeeds with 200 and
one entry. -/
theorem check_agent_spec_witness :
    handle_check_agent wEnv wStore
        (some (Json.obj [("agent_path", Json.str "exports/agent.py")])) =
      (Except.ok ⟨200, Json.obj [("required",
         Json.arr (wSession.missing.map (requiredEntry wStore)))]⟩,
       Call.fromAgentPath (Json.str "exports/agent.py") false ::
         wSession.missing.map (fun mc =>
           Call.isAvailable (pyOr mc.credential_id mc.credential_name))) :=
  (check_agent_spec wEnv wStore [("agent_path", Json.str "exports/agent.py")]).2.2
    wSession (by decide) rfl

/-- C8: every entry of the check-agent `required` list resolves
`credential_id` as `mc.credential_id or mc.credential_name` (Python
`or`), and its `available` field is `store.is_available` applied to that
same resolved id. -/
theorem check_agent_required_entries (env : SetupEnv) (store : CredentialStore)
    (kvs : List (String × Json)) (session : CredentialSetupSession)
    (mc : MissingCredential)
    (hpath : (dictGet kvs "agent_path").truthy = true)
    (hsession : env.from_agent_path (dictGet kvs "agent_path") false = Except.ok session)
    (hmc : mc ∈ session.missing) :
    (handle_check_agent env store (some (Json.obj kvs))).1 =
      Except.ok ⟨200, Json.obj [("required",
        Json.arr (session.missing.map (requiredEntry store)))]⟩
  ∧ requiredEntry store mc ∈ session.missing.map (requiredEntry store)
  ∧ dictGet (requiredFields store mc) "credential_id" =
      pyOr mc.credential_id mc.credential_name
  ∧ dictGet (requiredFields store mc) "available" =
      Json.bool (store.is_available (pyOr mc.credential_id mc.credential_name)) :=
  ⟨by simp [handle_check_agent, hpath, hsession, json_response],
   List.mem_map_of_mem _ hmc, rfl, rfl⟩

/-- Witness for C8 at the concrete session with a falsy
`credential_id`, so the id falls back to the name. -/
theorem check_agent_required_entries_witness :
    (handle_check_agent wEnv wStore
        (some (Json.obj [("agent_path", Json.str "exports/agent.py")]))).1 =
      Except.ok ⟨200, Json.obj [("required",
        Json.arr (wSession.missing.map (requiredEntry wStore)))]⟩
  ∧ requiredEntry wStore wMissing ∈ wSession.missing.map (requiredEntry wStore)
  ∧ dictGet (requiredFields wStore wMissing) "credential_id" =
      pyOr wMissing.credential_id wMissing.credential_name
  ∧ dictGet (requiredFields wStore wMissing) "available" =
      Json.bool (wStore.is_available (pyOr wMissing.credential_id wMissing.credential_name)) :=
  check_agent_required_entries wEnv wStore
    [("agent_path", Json.str "exports/agent.py")] wSession wMissing
    (by decide) rfl (List.mem_cons_self _ _)

/-- C9: whenever POST /api/credentials answers 400, the handler has made
no store call at all — in particular `save_credential` is never called,
so a rejected save leaves the store unchanged. -/
theorem save_rejected_no_store_call (store : CredentialStore) (rawBody : Option Json)
    (r : Response)
    (hok : (handle_save_credential store rawBody).1 = Except.ok r)
    (h400 : r.status = 400) :
    (handle_save_credential store rawBody).2 = [] := by
  rcases rawBody with _ | body
  · exact absurd hok (by simp [handle_save_credential])
  · rcases body with _ | b | n | s | xs | kvs
    case obj =>
      by_cases h1 : (dictGet kvs "credential_id").truthy = true <;>
      by_cases h2 : (dictGet kvs "keys").truthy = true <;>
      by_cases h3 : (dictGet kvs "keys").isObj = true <;>
        simp_all [handle_save_credential, json_response] <;>
        (subst hok; simp at h400)
    all_goals exact absurd hok (by simp [handle_save_credential])

/-- Witness for C9: a dict body with no fields is rejected with an empty
call trace. -/
theorem save_rejected_no_store_call_witness :
    (handle_save_credential wStore (some (Json.obj []))).2 = [] :=
  save_rejected_no_store_call wStore (some (Json.obj []))
    ⟨400, Json.obj [("error", Json.str "credential_id and keys are required")]⟩
    rfl rfl

/-- C10: the two read endpoints only ever call `list_credentials` and
`get_credential`, and every `get_credential` call carries
`refresh_if_needed=False`. -/
theorem read_endpoints_refresh_false (store : CredentialStore)
    (credential_id : String) :
    (∀ c ∈ (handle_list_credentials store).2,
        c = Call.listCredentials ∨ ∃ i, c = Call.getCredential i false)
  ∧ (∀ c ∈ (handle_get_credential store credential_id).2,
        ∃ i, c = Call.getCredential i false) := by
  constructor
  · intro c hc
    simp only [handle_list_credentials, List.mem_cons, List.mem_map] at hc
    rcases hc with hc | ⟨i, _, hi⟩
    · exact Or.inl hc
    · exact Or.inr ⟨i, hi.symm⟩
  · intro c hc
    rcases hg : store.get_credential credential_id false with _ | cred <;>
      simp only [handle_get_credential, hg, List.mem_singleton] at hc <;>
      exact ⟨credential_id, hc⟩

/-- Witness for C10: the concrete get trace consists of a
`refresh_if_needed=False` fetch. -/
theorem read_endpoints_refresh_false_witness :
    ∃ i, Call.getCredential "db" false = Call.getCredential i false :=
  (read_endpoints_refresh_false wStore "db").2 (Call.getCredential "db" false)
    (List.mem_cons_self _ _)
